import Mathlib

/-!
Verification of the dependency-injection provider (`litestar/di.py`, class
`Provide`) and the ASGI route handler (`litestar/handlers/asgi_handlers.py`,
class `ASGIRouteHandler`) against their specification.

The Python code is shallowly embedded: runtime introspection results
(`isclass`, `isgeneratorfunction`, `isasyncgenfunction`, `is_async_callable`)
become boolean fields of a dependency descriptor; the mutable `Provide`
object becomes an explicit state record threaded through pure functions;
exceptions become `Except`; emitted warnings become an explicit list.
-/

namespace Di

/-- Result of the runtime introspection the constructor of `Provide` performs
on the dependency value.  Each field records the outcome of one Python
predicate applied to the dependency object; `id` stands for the object's
identity (distinct callables have distinct ids).  The fields named `call*`
record the predicates applied to the attribute `__call__` of the object,
which is what the source inspects when the dependency is a class. -/
structure Dep where
  /-- object identity of the dependency -/
  id : Nat
  /-- Python `callable(dependency)`. -/
  isCallable : Bool
  /-- Python `isclass(dependency)`. -/
  isClass : Bool
  /-- Python `isgeneratorfunction(dependency)`. -/
  isGeneratorFunction : Bool
  /-- Python `isasyncgenfunction(dependency)`. -/
  isAsyncGenFunction : Bool
  /-- Python `isgeneratorfunction(dependency.__call__)`. -/
  callIsGeneratorFunction : Bool
  /-- Python `isasyncgenfunction(dependency.__call__)`. -/
  callIsAsyncGenFunction : Bool
  /-- Python `is_async_callable(dependency)`: true when the object (or its
  `__call__`) is a coroutine function -/
  isAsyncCallable : Bool
  deriving DecidableEq, Repr

/-- The dependency object held by a provider: either the original object or
the wrapper produced by `ensure_async_callable` (a distinct object). -/
inductive DepRef where
  | orig (d : Dep)
  | ensuredAsync (d : Dep)
  deriving DecidableEq, Repr

/-- The `ImproperlyConfiguredException`, carrying its message. -/
inductive ConfigError where
  | improperlyConfigured (msg : String)
  deriving DecidableEq, Repr

/-- The three warnings `Provide.__init__` may emit. -/
inductive Warn where
  | syncToThreadWithGenerator
  | syncToThreadWithAsyncCallable
  | implicitSyncToThread
  deriving DecidableEq, Repr

/-- State of a `Provide` instance.  `value = none` is the `Empty` sentinel
(`self.value: Any = Empty`); `some v` is a cached result, so any legal
dependency result — including Python `None`, which is just an element of
`α` — is distinct from the unset sentinel.  `parsed_fn_signature` and
`signature_model` start as Python `None` (`none` here). -/
structure ProvideState (α σ μ : Type) where
  dependency : DepRef
  has_sync_generator_dependency : Bool
  has_async_generator_dependency : Bool
  has_sync_callable : Bool
  sync_to_thread : Bool
  use_cache : Bool
  value : Option α
  parsed_fn_signature : Option σ
  signature_model : Option μ

/-- Source `isgeneratorfunction(dependency if not is_class_dependency else dependency.__call__)`. -/
def hasSyncGeneratorDependency (d : Dep) : Bool :=
  if d.isClass then d.callIsGeneratorFunction else d.isGeneratorFunction

/-- Source `isasyncgenfunction(dependency if not is_class_dependency else dependency.__call__)`. -/
def hasAsyncGeneratorDependency (d : Dep) : Bool :=
  if d.isClass then d.callIsAsyncGenFunction else d.isAsyncGenFunction

/-- Source `has_generator_dependency = self.has_sync_generator_dependency or self.has_async_generator_dependency`. -/
def hasGeneratorDependency (d : Dep) : Bool :=
  hasSyncGeneratorDependency d || hasAsyncGeneratorDependency d

/-- Source `Provide.__init__(dependency, use_cache, sync_to_thread)`.

`sync_to_thread : Option Bool` mirrors `bool | None` (with `none` the
default `None`).  Returns the constructed state together with the warnings
emitted, or the `ImproperlyConfiguredException` raised. -/
def provideInit (α σ μ : Type) (d : Dep) (use_cache : Bool)
    (sync_to_thread : Option Bool) :
    Except ConfigError (ProvideState α σ μ × List Warn) :=
  if !d.isCallable then
    .error (.improperlyConfigured "Provider dependency must be a callable value")
  else
    let has_sync_generator_dependency := hasSyncGeneratorDependency d
    let has_async_generator_dependency := hasAsyncGeneratorDependency d
    let has_generator_dependency :=
      has_sync_generator_dependency || has_async_generator_dependency
    if has_generator_dependency && use_cache then
      .error (.improperlyConfigured
        "Cannot cache generator dependency, consider using Lifespan Context instead.")
    else
      let has_sync_callable := d.isClass || !d.isAsyncCallable
      let warns : List Warn :=
        match sync_to_thread with
        | some _ =>
          if has_generator_dependency then [.syncToThreadWithGenerator]
          else if !has_sync_callable then [.syncToThreadWithAsyncCallable]
          else []
        | none =>
          if has_sync_callable && !has_generator_dependency then
            [.implicitSyncToThread]
          else []
      -- `if sync_to_thread and has_sync_callable:` (None is falsy)
      let wrap := sync_to_thread.getD false && has_sync_callable
      let st : ProvideState α σ μ :=
        { dependency := if wrap then .ensuredAsync d else .orig d
          has_sync_generator_dependency
          has_async_generator_dependency
          has_sync_callable := if wrap then false else has_sync_callable
          sync_to_thread := sync_to_thread.getD false
          use_cache
          value := none
          parsed_fn_signature := none
          signature_model := none }
      .ok (st, warns)

/-- Source `Provide.__call__(self, **kwargs)`.

`depFun` gives the semantics of calling `self.dependency(**kwargs)`; the
sync and async branches of the source both perform exactly that call, so
they collapse to one application here.  Returns the produced value, the
successor state, and how many times the dependency was invoked (0 or 1). -/
def provideCall {α σ μ κ : Type} (depFun : κ → α) (s : ProvideState α σ μ)
    (kwargs : κ) : α × ProvideState α σ μ × Nat :=
  match s.use_cache, s.value with
  | true, some v => (v, s, 0)
  | _, _ =>
    let value := depFun kwargs
    let s' := if s.use_cache then { s with value := some value } else s
    (value, s', 1)

/-- Repeated invocation of the provider: returns the list of produced
values, the final state, and the total number of dependency invocations. -/
def provideCalls {α σ μ κ : Type} (depFun : κ → α) :
    ProvideState α σ μ → List κ → List α × ProvideState α σ μ × Nat
  | s, [] => ([], s, 0)
  | s, k :: ks =>
    let r := provideCall depFun s k
    let rest := provideCalls depFun r.2.1 ks
    (r.1 :: rest.1, rest.2.1, r.2.2 + rest.2.2)

/-- A single invocation of a non-caching provider invokes the dependency
once and returns the state unchanged. -/
theorem provideCall_no_cache {α σ μ κ : Type} (depFun : κ → α)
    (s : ProvideState α σ μ) (k : κ) (h : s.use_cache = false) :
    provideCall depFun s k = (depFun k, s, 1) := by
  unfold provideCall
  rcases hv : s.value with _ | v <;> simp [h, hv]

/-- C1: for a cache-enabled provider over a pure dependency `depFun`,
calling twice — with any keyword arguments, even different ones — returns
the same value both times and invokes the dependency exactly once.  The
value type `α` is arbitrary, so this holds for every result `depFun` may
produce, including Python `None`: the unset sentinel is `Option.none` at
the slot level, distinct from `some v` for every legal result `v`. -/
theorem provide_cached_calls_share_one_invocation {α σ μ κ : Type}
    (depFun : κ → α) (s : ProvideState α σ μ) (k1 k2 : κ) :
    (provideCall depFun { s with use_cache := true, value := none } k1).1
        = depFun k1 ∧
    (provideCall depFun
        (provideCall depFun { s with use_cache := true, value := none } k1).2.1
        k2).1
        = depFun k1 ∧
    (provideCall depFun { s with use_cache := true, value := none } k1).2.2 +
      (provideCall depFun
        (provideCall depFun { s with use_cache := true, value := none } k1).2.1
        k2).2.2 = 1 := by
  refine ⟨rfl, ?_, ?_⟩ <;> rfl

/-- C10: a provider with caching disabled never touches the cached-value
slot: after any sequence of invocations the state (and with it the unset
sentinel in `value`) is unchanged, every invocation re-invokes the
dependency (total count equals the number of calls), and each call returns
a freshly computed result. -/
theorem provide_uncached_never_caches {α σ μ κ : Type} (depFun : κ → α)
    (s : ProvideState α σ μ) (ks : List κ) :
    provideCalls depFun { s with use_cache := false, value := none } ks =
      (ks.map depFun, { s with use_cache := false, value := none }, ks.length) := by
  induction ks with
  | nil => rfl
  | cons k ks ih =>
    rw [provideCalls, provideCall_no_cache depFun _ k rfl, ih]
    simp [Nat.add_comm]

/-- The dependency object held by a successfully constructed provider. -/
def initDependency {α σ μ : Type}
    (r : Except ConfigError (ProvideState α σ μ × List Warn)) : Option DepRef :=
  match r with
  | .ok (s, _) => some s.dependency
  | .error _ => none

/-- The `has_sync_callable` flag of a successfully constructed provider. -/
def initHasSyncCallable {α σ μ : Type}
    (r : Except ConfigError (ProvideState α σ μ × List Warn)) : Option Bool :=
  match r with
  | .ok (s, _) => some s.has_sync_callable
  | .error _ => none

/-- The pair of generator-classification flags of a successfully
constructed provider. -/
def initGeneratorFlags {α σ μ : Type}
    (r : Except ConfigError (ProvideState α σ μ × List Warn)) :
    Option (Bool × Bool) :=
  match r with
  | .ok (s, _) =>
    some (s.has_sync_generator_dependency, s.has_async_generator_dependency)
  | .error _ => none

/-- C4: constructing a `Provide` with `use_cache = true` over any
generator-based dependency — sync generator function, async generator
function, or a class whose `__call__` is generator-based (the class case is
covered because `hasGeneratorDependency` inspects `__call__` when
`isClass`) — raises `ImproperlyConfiguredException`, for every value of
`sync_to_thread`. -/
theorem provideInit_cached_generator_errors (α σ μ : Type) (d : Dep)
    (sync_to_thread : Option Bool) (hc : d.isCallable = true)
    (hg : hasGeneratorDependency d = true) :
    provideInit α σ μ d true sync_to_thread =
      .error (.improperlyConfigured
        "Cannot cache generator dependency, consider using Lifespan Context instead.") := by
  rw [hasGeneratorDependency] at hg
  unfold provideInit
  simp [hc, hg]

/-- A plain synchronous generator function used as a dependency
(`def f(): yield ...`). -/
def syncGenDep : Dep :=
  { id := 0, isCallable := true, isClass := false, isGeneratorFunction := true
    isAsyncGenFunction := false, callIsGeneratorFunction := false
    callIsAsyncGenFunction := false, isAsyncCallable := false }

/-- A class whose `__call__` is an async generator function. -/
def asyncGenCallClassDep : Dep :=
  { id := 1, isCallable := true, isClass := true, isGeneratorFunction := false
    isAsyncGenFunction := false, callIsGeneratorFunction := false
    callIsAsyncGenFunction := true, isAsyncCallable := false }

/-- Witness for C4: the sync-generator function and the class with an
async-generator `__call__` both satisfy the hypotheses, and construction
with `use_cache = true` fails, whatever `sync_to_thread` is. -/
theorem provideInit_cached_generator_errors_witness :
    (syncGenDep.isCallable = true ∧ hasGeneratorDependency syncGenDep = true ∧
      provideInit Nat Nat Nat syncGenDep true (some true) =
        .error (.improperlyConfigured
          "Cannot cache generator dependency, consider using Lifespan Context instead.")) ∧
    (asyncGenCallClassDep.isCallable = true ∧
      hasGeneratorDependency asyncGenCallClassDep = true ∧
      provideInit Nat Nat Nat asyncGenCallClassDep true none =
        .error (.improperlyConfigured
          "Cannot cache generator dependency, consider using Lifespan Context instead.")) :=
  ⟨⟨rfl, rfl, provideInit_cached_generator_errors Nat Nat Nat syncGenDep (some true) rfl rfl⟩,
   ⟨rfl, rfl, provideInit_cached_generator_errors Nat Nat Nat asyncGenCallClassDep none rfl rfl⟩⟩

/-- Counterexample to C6: for the sync-generator dependency `syncGenDep`
with `sync_to_thread = True`, construction does NOT leave the wrapped
dependency object and its classification unchanged: the dependency is
replaced by the `ensure_async_callable` wrapper (a different object) and
`has_sync_callable` flips to `false`, whereas without the explicit request
it would be `true`.  The offload request is therefore not ignored for
generator-based dependencies. -/
theorem provideInit_sync_to_thread_generator_rewraps :
    initDependency (provideInit Nat Nat Nat syncGenDep false (some true)) =
      some (.ensuredAsync syncGenDep) ∧
    DepRef.ensuredAsync syncGenDep ≠ DepRef.orig syncGenDep ∧
    initHasSyncCallable (provideInit Nat Nat Nat syncGenDep false (some true)) =
      some false ∧
    initHasSyncCallable (provideInit Nat Nat Nat syncGenDep false none) =
      some true :=
  ⟨rfl, by decide, rfl, rfl⟩

/-- C6 (amended): the explicit `sync_to_thread` request is ignored (the
dependency object and all classification flags are unchanged, only a
warning is surfaced, construction succeeds) for a dependency that is
already asynchronous (`is_async_callable`, non-class), and for any
generator-based dependency when the explicit request is `False`; but a
generator-based dependency that the constructor deems sync-callable,
together with `sync_to_thread = True`, is re-wrapped via
`ensure_async_callable` and re-classified as non-sync — still with only a
warning, and construction still succeeds. -/
theorem provideInit_sync_to_thread_mismatch (α σ μ : Type) (d : Dep)
    (use_cache b : Bool) (hc : d.isCallable = true) :
    (d.isClass = false → d.isAsyncCallable = true →
      hasGeneratorDependency d = false →
      provideInit α σ μ d use_cache (some b) =
        .ok ({ dependency := .orig d
               has_sync_generator_dependency := hasSyncGeneratorDependency d
               has_async_generator_dependency := hasAsyncGeneratorDependency d
               has_sync_callable := false
               sync_to_thread := b
               use_cache := use_cache
               value := none
               parsed_fn_signature := none
               signature_model := none },
              [.syncToThreadWithAsyncCallable])) ∧
    (hasGeneratorDependency d = true → use_cache = false →
      (d.isClass || !d.isAsyncCallable) = true →
      provideInit α σ μ d use_cache (some true) =
        .ok ({ dependency := .ensuredAsync d
               has_sync_generator_dependency := hasSyncGeneratorDependency d
               has_async_generator_dependency := hasAsyncGeneratorDependency d
               has_sync_callable := false
               sync_to_thread := true
               use_cache := use_cache
               value := none
               parsed_fn_signature := none
               signature_model := none },
              [.syncToThreadWithGenerator])) ∧
    (hasGeneratorDependency d = true → use_cache = false →
      provideInit α σ μ d use_cache (some false) =
        .ok ({ dependency := .orig d
               has_sync_generator_dependency := hasSyncGeneratorDependency d
               has_async_generator_dependency := hasAsyncGeneratorDependency d
               has_sync_callable := d.isClass || !d.isAsyncCallable
               sync_to_thread := false
               use_cache := use_cache
               value := none
               parsed_fn_signature := none
               signature_model := none },
              [.syncToThreadWithGenerator])) := by
  refine ⟨?_, ?_, ?_⟩
  · intro h1 h2 h3
    rw [hasGeneratorDependency] at h3
    unfold provideInit
    simp [hc, h1, h2, h3]
  · intro h1 h2 h3
    rw [hasGeneratorDependency] at h1
    unfold provideInit
    subst h2
    simp [hc, h1, h3]
  · intro h1 h2
    rw [hasGeneratorDependency] at h1
    unfold provideInit
    subst h2
    simp [hc, h1]

/-- An async (coroutine-function) dependency (`async def f(): ...`). -/
def asyncFnDep : Dep :=
  { id := 2, isCallable := true, isClass := false, isGeneratorFunction := false
    isAsyncGenFunction := false, callIsGeneratorFunction := false
    callIsAsyncGenFunction := false, isAsyncCallable := true }

/-- Witness for the amended C6: all three branches instantiated — the
already-async dependency with `sync_to_thread = True`, and the
sync-generator dependency with `True` and with `False`. -/
theorem provideInit_sync_to_thread_mismatch_witness :
    (asyncFnDep.isCallable = true ∧ asyncFnDep.isClass = false ∧
      asyncFnDep.isAsyncCallable = true ∧
      hasGeneratorDependency asyncFnDep = false ∧
      initDependency (provideInit Nat Nat Nat asyncFnDep false (some true)) =
        some (.orig asyncFnDep)) ∧
    (hasGeneratorDependency syncGenDep = true ∧
      initDependency (provideInit Nat Nat Nat syncGenDep false (some true)) =
        some (.ensuredAsync syncGenDep)) ∧
    (initDependency (provideInit Nat Nat Nat syncGenDep false (some false)) =
        some (.orig syncGenDep)) := by
  refine ⟨⟨rfl, rfl, rfl, rfl, ?_⟩, ⟨rfl, ?_⟩, ?_⟩
  · rw [(provideInit_sync_to_thread_mismatch Nat Nat Nat asyncFnDep false true
      rfl).1 rfl rfl rfl]
    rfl
  · rw [(provideInit_sync_to_thread_mismatch Nat Nat Nat syncGenDep false true
      rfl).2.1 rfl rfl rfl]
    rfl
  · rw [(provideInit_sync_to_thread_mismatch Nat Nat Nat syncGenDep false false
      rfl).2.2 rfl rfl]
    rfl

/-- A class whose `__call__` is an async (coroutine) function
(`class C:` with `async def __call__(self): ...`).  For such a class
`is_async_callable(C)` is true, because it inspects `C.__call__`. -/
def asyncCallClassDep : Dep :=
  { id := 3, isCallable := true, isClass := true, isGeneratorFunction := false
    isAsyncGenFunction := false, callIsGeneratorFunction := false
    callIsAsyncGenFunction := false, isAsyncCallable := true }

/-- Counterexample to C7: a class whose `__call__` is an async (coroutine)
function — so by the claim it should NOT be classified synchronous — is
nevertheless classified synchronous-plain: `has_sync_callable` is computed
as `is_class_dependency or not is_async_callable(dependency)`, and the
`or` short-circuits on the class check, so `isAsyncCallable = true` is
never consulted. -/
theorem provideInit_class_async_call_still_sync :
    asyncCallClassDep.isClass = true ∧
    asyncCallClassDep.isAsyncCallable = true ∧
    asyncCallClassDep.callIsAsyncGenFunction = false ∧
    initHasSyncCallable (provideInit Nat Nat Nat asyncCallClassDep false none) =
      some true ∧
    initGeneratorFlags (provideInit Nat Nat Nat asyncCallClassDep false none) =
      some (false, false) :=
  ⟨rfl, rfl, rfl, rfl, rfl⟩

/-- C7 (amended): every class dependency is classified sync-callable
(`has_sync_callable = true`), whatever `is_async_callable` says of it —
including a class whose `__call__` is a coroutine function; only the
generator flags follow the class's `__call__`, so a class with an
async-generator `__call__` is classified async-generator and a class with
a synchronous plain `__call__` is classified synchronous-plain. -/
theorem provideInit_class_classified_sync (α σ μ : Type) (d : Dep)
    (hc : d.isCallable = true) (hcl : d.isClass = true) :
    provideInit α σ μ d false none =
      .ok ({ dependency := .orig d
             has_sync_generator_dependency := d.callIsGeneratorFunction
             has_async_generator_dependency := d.callIsAsyncGenFunction
             has_sync_callable := true
             sync_to_thread := false
             use_cache := false
             value := none
             parsed_fn_signature := none
             signature_model := none },
            if d.callIsGeneratorFunction || d.callIsAsyncGenFunction then []
            else [.implicitSyncToThread]) := by
  unfold provideInit
  cases hgen : d.callIsGeneratorFunction || d.callIsAsyncGenFunction <;>
    simp [hc, hcl, hasSyncGeneratorDependency, hasAsyncGeneratorDependency,
      hgen]

/-- A class with a plain synchronous `__call__`. -/
def syncCallClassDep : Dep :=
  { id := 4, isCallable := true, isClass := true, isGeneratorFunction := false
    isAsyncGenFunction := false, callIsGeneratorFunction := false
    callIsAsyncGenFunction := false, isAsyncCallable := false }

/-- Witness for the amended C7: a class with a plain synchronous `__call__`
is classified synchronous-plain. -/
theorem provideInit_class_classified_sync_witness :
    syncCallClassDep.isCallable = true ∧ syncCallClassDep.isClass = true ∧
    initHasSyncCallable (provideInit Nat Nat Nat syncCallClassDep false none) =
      some true := by
  refine ⟨rfl, rfl, ?_⟩
  rw [provideInit_class_classified_sync Nat Nat Nat syncCallClassDep rfl rfl]
  rfl

/-- Source `Provide.__eq__`: `other is self or (isinstance(other, self.__class__)
and other.dependency == self.dependency and other.use_cache ==
self.use_cache and other.value == self.value)`.  Object identity implies
attribute equality and the `isinstance` check holds between two provider
states, so the embedding is the attribute comparison; note the `value`
slots are always compared, the unset sentinel (`none`) included. -/
def provideEq {α σ μ : Type} [DecidableEq α] (a b : ProvideState α σ μ) : Bool :=
  decide (b.dependency = a.dependency) && decide (b.use_cache = a.use_cache) &&
    decide (b.value = a.value)

/-- Provider equality as the claim words it: same dependency object, same
cache flag, and — only when both have resolved a cached value — the same
cached value.  (Definition following the spec's words, for comparison with
`provideEq`, which follows the source.) -/
def specProvideEq {α σ μ : Type} [DecidableEq α]
    (a b : ProvideState α σ μ) : Bool :=
  decide (b.dependency = a.dependency) && decide (b.use_cache = a.use_cache) &&
    (match a.value, b.value with
     | some x, some y => decide (x = y)
     | _, _ => true)

/-- A plain synchronous function dependency. -/
def plainFnDep : Dep :=
  { id := 5, isCallable := true, isClass := false, isGeneratorFunction := false
    isAsyncGenFunction := false, callIsGeneratorFunction := false
    callIsAsyncGenFunction := false, isAsyncCallable := false }

/-- A second, distinct plain synchronous function dependency. -/
def plainFnDep2 : Dep :=
  { id := 6, isCallable := true, isClass := false, isGeneratorFunction := false
    isAsyncGenFunction := false, callIsGeneratorFunction := false
    callIsAsyncGenFunction := false, isAsyncCallable := false }

/-- The state `Provide.__init__(d, use_cache, None)` produces for a plain
synchronous function dependency. -/
def freshProvider (d : Dep) (uc : Bool) : ProvideState Nat Nat Nat :=
  { dependency := .orig d, has_sync_generator_dependency := false
    has_async_generator_dependency := false, has_sync_callable := true
    sync_to_thread := false, use_cache := uc, value := none
    parsed_fn_signature := none, signature_model := none }

/-- Counterexample to C8: under the claim's wording, a freshly constructed
cache-enabled provider (unset slot) and the same provider after one
invocation that cached `5` are equal — same dependency, same flag, not
both resolved.  The source's `__eq__` compares the `value` slots
unconditionally, so it reports them unequal. -/
theorem provideEq_counterexample :
    provideInit Nat Nat Nat plainFnDep true none =
      .ok (freshProvider plainFnDep true, [.implicitSyncToThread]) ∧
    (provideCall (fun _ : Unit => 5) (freshProvider plainFnDep true) ()).2.1 =
      { freshProvider plainFnDep true with value := some 5 } ∧
    specProvideEq (freshProvider plainFnDep true)
      { freshProvider plainFnDep true with value := some 5 } = true ∧
    provideEq (freshProvider plainFnDep true)
      { freshProvider plainFnDep true with value := some 5 } = false :=
  ⟨rfl, rfl, by decide, by decide⟩

/-- Fields of any successfully constructed provider state: the stored
cache flag is the requested one, the value slot starts unset, and the
stored dependency is the original object or its async wrapper. -/
theorem provideInit_ok_fields {α σ μ : Type} {d : Dep} {uc : Bool}
    {stt : Option Bool} {s : ProvideState α σ μ} {w : List Warn}
    (h : provideInit α σ μ d uc stt = .ok (s, w)) :
    s.use_cache = uc ∧ s.value = none ∧
    (s.dependency = .orig d ∨ s.dependency = .ensuredAsync d) := by
  unfold provideInit at h
  by_cases hc : (!d.isCallable) = true
  · simp [hc] at h
  · simp only [hc, if_false, Bool.false_eq_true, if_neg] at h
    split at h
    · exact Except.noConfusion h
    · simp only [Except.ok.injEq, Prod.mk.injEq] at h
      obtain ⟨hs, -⟩ := h
      subst s
      refine ⟨rfl, rfl, ?_⟩
      split
      · exact Or.inr rfl
      · exact Or.inl rfl

/-- C8 (amended): the source's provider equality holds iff the two states
agree on the dependency object, the cache flag, AND the entire
cached-value slot, the unset sentinel included — a provider that has
cached a value is unequal to one that has not.  In particular two freshly
constructed providers over the same dependency with the same flags are
equal, while differing cache flags or distinct dependency objects make
them unequal. -/
theorem provideEq_amended {α σ μ : Type} [DecidableEq α]
    (a b s1 s2 : ProvideState α σ μ) (d1 d2 : Dep) (uc1 uc2 : Bool)
    (stt1 stt2 : Option Bool) (w1 w2 : List Warn)
    (h1 : provideInit α σ μ d1 uc1 stt1 = .ok (s1, w1))
    (h2 : provideInit α σ μ d2 uc2 stt2 = .ok (s2, w2)) :
    (provideEq a b = true ↔
      b.dependency = a.dependency ∧ b.use_cache = a.use_cache ∧
        b.value = a.value) ∧
    (d1 = d2 → uc1 = uc2 → stt1 = stt2 → provideEq s1 s2 = true) ∧
    (uc1 ≠ uc2 → provideEq s1 s2 = false) ∧
    (d1 ≠ d2 → provideEq s1 s2 = false) := by
  obtain ⟨hu1, hv1, hd1⟩ := provideInit_ok_fields h1
  obtain ⟨hu2, hv2, hd2⟩ := provideInit_ok_fields h2
  have hchar : ∀ x y : ProvideState α σ μ, provideEq x y = true ↔
      y.dependency = x.dependency ∧ y.use_cache = x.use_cache ∧
        y.value = x.value := by
    intro x y
    simp [provideEq, and_assoc]
  refine ⟨hchar a b, ?_, ?_, ?_⟩
  · intro hd hu hstt
    subst hd; subst hu; subst hstt
    rw [h1] at h2
    simp only [Except.ok.injEq, Prod.mk.injEq] at h2
    rw [(hchar s1 s2).2 ⟨by rw [h2.1], by rw [h2.1], by rw [h2.1]⟩]
  · intro hne
    cases hb : provideEq s1 s2
    · rfl
    · obtain ⟨-, hu, -⟩ := (hchar s1 s2).1 hb
      exact absurd (hu1 ▸ hu2 ▸ hu.symm) hne
  · intro hne
    cases hb : provideEq s1 s2
    · rfl
    · obtain ⟨hd, -, -⟩ := (hchar s1 s2).1 hb
      rcases hd1 with h1d | h1d <;> rcases hd2 with h2d | h2d <;>
        rw [h1d, h2d] at hd <;> simp only [DepRef.orig.injEq,
          DepRef.ensuredAsync.injEq, reduceCtorEq] at hd <;>
        exact absurd hd.symm hne

/-- Witness for the amended C8: concrete fresh providers — identical
dependency and flags are equal; flipping the cache flag, or swapping in a
distinct callable, makes them unequal. -/
theorem provideEq_amended_witness :
    provideEq (freshProvider plainFnDep true) (freshProvider plainFnDep true) =
      true ∧
    provideEq (freshProvider plainFnDep true) (freshProvider plainFnDep false) =
      false ∧
    provideEq (freshProvider plainFnDep true) (freshProvider plainFnDep2 true) =
      false := by
  refine ⟨?_, ?_, ?_⟩
  · exact (provideEq_amended (freshProvider plainFnDep true)
      (freshProvider plainFnDep true) (freshProvider plainFnDep true)
      (freshProvider plainFnDep true) plainFnDep plainFnDep true true none none
      [.implicitSyncToThread] [.implicitSyncToThread] rfl rfl).2.1 rfl rfl rfl
  · exact (provideEq_amended (freshProvider plainFnDep true)
      (freshProvider plainFnDep true) (freshProvider plainFnDep true)
      (freshProvider plainFnDep false) plainFnDep plainFnDep true false none none
      [.implicitSyncToThread] [.implicitSyncToThread] rfl rfl).2.2.1 (by decide)
  · exact (provideEq_amended (freshProvider plainFnDep true)
      (freshProvider plainFnDep true) (freshProvider plainFnDep true)
      (freshProvider plainFnDep2 true) plainFnDep plainFnDep2 true true none none
      [.implicitSyncToThread] [.implicitSyncToThread] rfl rfl).2.2.2 (by decide)

/-- A `DIPlugin` as `finalize` consults it: the `isinstance(p, DIPlugin)`
check, the `has_typed_init` capability predicate, and `get_typed_init`
returning a signature/type-hints pair (types `π` and `η`). -/
structure DIPluginM (π η : Type) where
  isDIPlugin : Bool
  hasTypedInit : DepRef → Bool
  getTypedInit : DepRef → π × η

/-- The arguments of one `finalize` call, together with the external
collaborators it uses (`unwrap_partial`, `ParsedSignature.from_signature`,
`ParsedSignature.from_fn`, `SignatureModel.create`), which are opaque to
this core and therefore passed in as functions. -/
structure FinalizeArgs (σ μ π η : Type) where
  plugins : Option (List (DIPluginM π η))
  signature_namespace : List (String × Nat)
  dependency_keys : List String
  data_dto : Option Nat
  type_decoders : List Nat
  unwrapPartial : DepRef → DepRef
  fromSignature : π → η → σ
  fromFn : DepRef → List (String × Nat) → σ
  createModel : List String → DepRef → Option σ → Option Nat → List Nat → μ

/-- Source `Provide.finalize`: resolve the parsed signature if still `None`
(preferring the first plugin that is a `DIPlugin` and has a typed init for
the unwrapped dependency, else default introspection with the namespace),
then build the signature model if still `None` from the dependency-key
set, the dependency, the parsed signature, the DTO type and the
type decoders. -/
def finalize {α σ μ π η : Type} (a : FinalizeArgs σ μ π η)
    (s : ProvideState α σ μ) : ProvideState α σ μ :=
  let s1 :=
    if s.parsed_fn_signature.isNone then
      let dependency := a.unwrapPartial s.dependency
      let plugin : Option (DIPluginM π η) :=
        match a.plugins with
        | some ps => ps.find? (fun p => p.isDIPlugin && p.hasTypedInit dependency)
        | none => none
      let sig :=
        match plugin with
        | some p =>
          let ti := p.getTypedInit dependency
          a.fromSignature ti.1 ti.2
        | none => a.fromFn dependency a.signature_namespace
      { s with parsed_fn_signature := some sig }
    else s
  if s1.signature_model.isNone then
    let model := a.createModel a.dependency_keys s1.dependency
      s1.parsed_fn_signature a.data_dto a.type_decoders
    { s1 with signature_model := some model }
  else s1

/-- After any `finalize` call both lazily-resolved fields are populated. -/
theorem finalize_resolves {α σ μ π η : Type} (a : FinalizeArgs σ μ π η)
    (s : ProvideState α σ μ) :
    (finalize a s).parsed_fn_signature.isSome = true ∧
      (finalize a s).signature_model.isSome = true := by
  rcases hp : s.parsed_fn_signature with _ | x <;>
    rcases hm : s.signature_model with _ | y <;>
    simp [finalize, hp, hm]

/-- Running `finalize` on an already-resolved provider is a no-op. -/
theorem finalize_noop {α σ μ π η : Type} (b : FinalizeArgs σ μ π η)
    (s : ProvideState α σ μ) (h1 : s.parsed_fn_signature.isSome = true)
    (h2 : s.signature_model.isSome = true) : finalize b s = s := by
  obtain ⟨x, hx⟩ := Option.isSome_iff_exists.mp h1
  obtain ⟨y, hy⟩ := Option.isSome_iff_exists.mp h2
  simp [finalize, hx, hy]

/-- Any further sequence of `finalize` calls on a resolved provider leaves
it unchanged. -/
theorem finalize_foldl_noop {α σ μ π η : Type}
    (rest : List (FinalizeArgs σ μ π η)) (s : ProvideState α σ μ)
    (h1 : s.parsed_fn_signature.isSome = true)
    (h2 : s.signature_model.isSome = true) :
    List.foldl (fun st ar => finalize ar st) s rest = s := by
  induction rest with
  | nil => rfl
  | cons b bs ih => rw [List.foldl_cons, finalize_noop b s h1 h2]; exact ih

/-- C9: `finalize` is idempotent — after one call has resolved the parsed
signature and the signature model, every subsequent call, with any
arguments (different plugin registries, namespaces, key sets, DTOs or
decoders), leaves the provider state exactly as it was after the first
call: a run of `n ≥ 1` calls (the list `a :: rest`) equals the first call
alone. -/
theorem finalize_idempotent {α σ μ π η : Type} (a : FinalizeArgs σ μ π η)
    (rest : List (FinalizeArgs σ μ π η)) (s : ProvideState α σ μ) :
    List.foldl (fun st ar => finalize ar st) s (a :: rest) = finalize a s := by
  rw [List.foldl_cons]
  exact finalize_foldl_noop rest (finalize a s) (finalize_resolves a s).1
    (finalize_resolves a s).2

end Di

namespace Asgi

/-- The parsed function signature of a handler, as
`ASGIRouteHandler._validate_handler_function` consults it:
`returnTypeIsNone` records `self.parsed_fn_signature.return_type.is_subclass_of(NoneType)`,
and `parameters` the parsed parameter names. -/
structure ParsedSignatureM where
  returnTypeIsNone : Bool
  parameters : List String

/-- Source `ASGIRouteHandler._validate_handler_function`.  `base` is the outcome
of `super()._validate_handler_function()` (BaseRouteHandler, outside this
slice; its exception propagates); `fnIsAsync` is
`is_async_callable(self.fn)`. -/
def validate_handler_function (base : Except Di.ConfigError Unit)
    (sig : ParsedSignatureM) (fnIsAsync : Bool) : Except Di.ConfigError Unit :=
  match base with
  | .error e => .error e
  | .ok () =>
    if !sig.returnTypeIsNone then
      .error (.improperlyConfigured "ASGI handler functions should return 'None'")
    else if ["scope", "send", "receive"].any
        (fun key => !(sig.parameters.contains key)) then
      .error (.improperlyConfigured
        "ASGI handler functions should define 'scope', 'send' and 'receive' arguments")
    else if !fnIsAsync then
      .error (.improperlyConfigured
        "Functions decorated with 'asgi' must be async functions")
    else .ok ()

/-- C2: validation of an `ASGIRouteHandler` (with the base validation
passing) succeeds exactly when the parsed return type is `None`, all three
parameter names `scope`, `send` and `receive` are declared, and the
wrapped callable is asynchronous — so removing any one of the three
parameters, a non-`None` return type, or a non-async callable each
independently yields `ImproperlyConfiguredException`. -/
theorem validate_handler_function_ok_iff (sig : ParsedSignatureM)
    (fnIsAsync : Bool) :
    validate_handler_function (.ok ()) sig fnIsAsync = .ok () ↔
      (sig.returnTypeIsNone = true ∧ "scope" ∈ sig.parameters ∧
        "send" ∈ sig.parameters ∧ "receive" ∈ sig.parameters ∧
        fnIsAsync = true) := by
  rcases hr : sig.returnTypeIsNone <;> rcases ha : fnIsAsync <;>
    by_cases h1 : "scope" ∈ sig.parameters <;>
    by_cases h2 : "send" ∈ sig.parameters <;>
    by_cases h3 : "receive" ∈ sig.parameters <;>
    simp [validate_handler_function, hr, ha, h1, h2, h3, List.contains,
      List.elem_iff]

/-- A connection, exposing the three ASGI primitives `handle` reads. -/
structure ConnectionM (σc ρ τ : Type) where
  scope : σc
  receive : ρ
  send : τ

/-- Observable dispatch events: one `guardPassed` per guard run to
completion, and one `fnCall` recording the named arguments the wrapped
callable receives. -/
inductive DispatchEvent (σc ρ τ : Type) where
  | guardPassed
  | fnCall (scope : σc) (receive : ρ) (send : τ)
  deriving DecidableEq, Repr

/-- Modelled from the spec: `BaseRouteHandler.authorize_connection` (not
in this slice) runs the resolved guards in order against the connection; a
failing guard surfaces its own error and dispatch stops.  Returns the
trace of guards run to completion and the first error, if any. -/
def authorize_connection {σc ρ τ ε : Type}
    (guards : List (ConnectionM σc ρ τ → Except ε Unit))
    (c : ConnectionM σc ρ τ) : List (DispatchEvent σc ρ τ) × Option ε :=
  match guards with
  | [] => ([], none)
  | g :: rest =>
    match g c with
    | .error e => ([], some e)
    | .ok () =>
      let r := authorize_connection rest c
      (.guardPassed :: r.1, r.2)

/-- Source `ASGIRouteHandler.handle(connection)`: when the resolved guard list is
non-empty, authorize the connection (a guard error propagates and aborts
dispatch); then await
`self.fn(scope=connection.scope, receive=connection.receive, send=connection.send)`,
recorded as one `fnCall` event carrying exactly those three named
arguments.  `_resolve_guards` (base class, not in this slice) yields the
handler's resolved guard sequence, the `guards` parameter here. -/
def handle {σc ρ τ ε : Type}
    (guards : List (ConnectionM σc ρ τ → Except ε Unit))
    (c : ConnectionM σc ρ τ) : List (DispatchEvent σc ρ τ) × Option ε :=
  let auth := if !guards.isEmpty then authorize_connection guards c
    else ([], none)
  match auth.2 with
  | some e => (auth.1, some e)
  | none => (auth.1 ++ [.fnCall c.scope c.receive c.send], none)

/-- The error of the first failing guard, if any. -/
def firstGuardError {σc ρ τ ε : Type}
    (guards : List (ConnectionM σc ρ τ → Except ε Unit))
    (c : ConnectionM σc ρ τ) : Option ε :=
  match guards with
  | [] => none
  | g :: rest =>
    match g c with
    | .error e => some e
    | .ok () => firstGuardError rest c

/-- Number of invocations of the wrapped callable recorded in a trace. -/
def countFnCalls {σc ρ τ : Type} (t : List (DispatchEvent σc ρ τ)) : Nat :=
  (t.filter fun ev =>
    match ev with
    | .fnCall _ _ _ => true
    | _ => false).length

/-- The authorization step reports exactly the first failing guard's
error. -/
theorem authorize_connection_snd {σc ρ τ ε : Type}
    (guards : List (ConnectionM σc ρ τ → Except ε Unit))
    (c : ConnectionM σc ρ τ) :
    (authorize_connection guards c).2 = firstGuardError guards c := by
  induction guards with
  | nil => rfl
  | cons g rest ih =>
    cases hg : g c <;>
      simp [authorize_connection, firstGuardError, hg, ih]

/-- The authorization step never invokes the wrapped callable. -/
theorem authorize_connection_no_fnCall {σc ρ τ ε : Type}
    (guards : List (ConnectionM σc ρ τ → Except ε Unit))
    (c : ConnectionM σc ρ τ) :
    countFnCalls (authorize_connection guards c).1 = 0 := by
  induction guards with
  | nil => rfl
  | cons g rest ih =>
    cases hg : g c with
    | error e => simp [authorize_connection, countFnCalls, hg]
    | ok v => simpa [authorize_connection, countFnCalls, hg] using ih

/-- When every guard passes, authorization completes every guard and
reports no error. -/
theorem authorize_connection_all_pass {σc ρ τ ε : Type}
    (guards : List (ConnectionM σc ρ τ → Except ε Unit))
    (c : ConnectionM σc ρ τ) (h : firstGuardError guards c = none) :
    authorize_connection guards c =
      (List.replicate guards.length .guardPassed, none) := by
  induction guards with
  | nil => rfl
  | cons g rest ih =>
    cases hg : g c with
    | error e => simp [firstGuardError, hg] at h
    | ok v =>
      rw [firstGuardError, hg] at h
      simp [authorize_connection, hg, ih h, List.replicate_succ]

/-- Dispatch always performs the authorization step (trivial for an empty
guard list) and then, absent an error, the single `fn` invocation. -/
theorem handle_eq_authorize {σc ρ τ ε : Type}
    (guards : List (ConnectionM σc ρ τ → Except ε Unit))
    (c : ConnectionM σc ρ τ) :
    handle guards c =
      (match authorize_connection guards c with
       | (t, some e) => (t, some e)
       | (t, none) => (t ++ [.fnCall c.scope c.receive c.send], none)) := by
  cases guards with
  | nil => rfl
  | cons g rest =>
    show (match (authorize_connection (g :: rest) c).2 with
      | some e => ((authorize_connection (g :: rest) c).1, some e)
      | none => ((authorize_connection (g :: rest) c).1 ++
          [DispatchEvent.fnCall c.scope c.receive c.send], none)) = _
    rcases authorize_connection (g :: rest) c with ⟨t, _ | e⟩ <;> rfl

/-- C3: if some guard fails, `handle` surfaces that guard's error and the
wrapped callable is never invoked; with no guards, or with every guard
passing, the wrapped callable is invoked exactly once, with exactly the
connection's `scope`, `receive` and `send` as named arguments, and only
after every guard has completed (all `guardPassed` events precede the
single `fnCall` event in the trace). -/
theorem handle_guard_semantics {σc ρ τ ε : Type}
    (guards : List (ConnectionM σc ρ τ → Except ε Unit))
    (c : ConnectionM σc ρ τ) :
    (∀ e, firstGuardError guards c = some e →
      (handle guards c).2 = some e ∧ countFnCalls (handle guards c).1 = 0) ∧
    (firstGuardError guards c = none →
      handle guards c =
        (List.replicate guards.length .guardPassed ++
          [.fnCall c.scope c.receive c.send], none)) := by
  refine ⟨?_, ?_⟩
  · intro e he
    have hs := authorize_connection_snd guards c
    have hnf := authorize_connection_no_fnCall guards c
    rw [handle_eq_authorize]
    rcases hauth : authorize_connection guards c with ⟨t, r⟩
    rw [hauth] at hs hnf
    rw [he] at hs
    simp only at hs hnf
    subst hs
    exact ⟨rfl, hnf⟩
  · intro hnone
    rw [handle_eq_authorize, authorize_connection_all_pass guards c hnone]

/-- A guard rejecting every connection. -/
def denyGuard : ConnectionM Nat Nat Nat → Except String Unit :=
  fun _ => .error "denied"

/-- A guard authorizing every connection. -/
def allowGuard : ConnectionM Nat Nat Nat → Except String Unit :=
  fun _ => .ok ()

/-- A concrete connection. -/
def conn0 : ConnectionM Nat Nat Nat := ⟨1, 2, 3⟩

/-- Witness for C3: with a failing guard the callable is never invoked and
the guard's error surfaces; with one passing guard the callable runs once,
after the guard, with the connection's primitives. -/
theorem handle_guard_semantics_witness :
    ((handle [denyGuard] conn0).2 = some "denied" ∧
      countFnCalls (handle [denyGuard] conn0).1 = 0) ∧
    handle [allowGuard] conn0 = ([.guardPassed, .fnCall 1 2 3], none) := by
  refine ⟨(handle_guard_semantics [denyGuard] conn0).1 "denied" rfl, ?_⟩
  rw [(handle_guard_semantics [allowGuard] conn0).2 rfl]
  rfl

/-- Modelled from the spec: strip leading and trailing slashes from a path
fragment (part of the path normalization `join_paths` performs). -/
def stripSlash (s : String) : String :=
  String.mk (((s.data.dropWhile (fun ch => ch == '/')).reverse.dropWhile
    (fun ch => ch == '/')).reverse)

/-- Modelled from the spec: `join_paths` (litestar.utils.path, outside
this slice) joins path fragments with a slash and normalizes to a single
leading slash and no trailing slash, so joining "/parent" with "/child"
yields "/parent/child". -/
def join_paths (paths : List String) : String :=
  "/" ++ String.intercalate "/"
    ((paths.map stripSlash).filter (fun f => !f.isEmpty))

/-- A Python dict modelled as an association list in which the first
binding of a key wins.  `dictMerge base override` is the double-splat
merge in which `override`'s entries win on key collision, so `override`'s
bindings are looked up before `base`'s. -/
def dictMerge {ν : Type} (base override : List (String × ν)) :
    List (String × ν) :=
  override ++ base

/-- Lookup in a dict merge: the override's binding wins, else the base's. -/
theorem dictMerge_lookup {ν : Type} (base override : List (String × ν))
    (k : String) :
    (dictMerge base override).lookup k =
      match override.lookup k with
      | some v => some v
      | none => base.lookup k := by
  induction override with
  | nil => rfl
  | cons p ov ih =>
    rcases p with ⟨k1, v1⟩
    show List.lookup k ((k1, v1) :: (ov ++ base)) = _
    cases h : k == k1 with
    | true => simp [List.lookup, h]
    | false => simpa [List.lookup, h, dictMerge] using ih

/-- An `ASGIRouteHandler`'s configuration, as its constructor (delegating
to the base handler, outside this slice) stores it: mappings are dicts
(association lists, first binding wins), sequences are lists, `guards`,
`middleware` and `type_decoders` entries and `fn` are identified by
opaque ids.  `dto`/`return_dto` distinguish the `Empty` sentinel (outer
`none`) from an explicit Python `None` (`some none`). -/
structure ASGIRouteHandlerM (ν : Type) where
  paths : List String
  fn : Nat
  dependencies : List (String × ν)
  dto : Option (Option Nat)
  return_dto : Option (Option Nat)
  exception_handlers : List (String × ν)
  guards : List Nat
  middleware : List Nat
  name : Option String
  opt : List (String × ν)
  signature_namespace : List (String × ν)
  signature_types : Option (List Nat)
  type_decoders : List Nat
  type_encoders : List (String × ν)
  parameters : List (String × ν)
  is_mount : Bool

/-- The parent scope (`Controller | Router`) fields `merge` reads; the
optional fields mirror the source's `or`-defaults (`other.guards or []`
etc.), and `signature_types` mirrors
`getattr(other, "signature_types", None)`. -/
structure ParentScopeM (ν : Type) where
  path : String
  dependencies : Option (List (String × ν))
  dto : Option (Option Nat)
  return_dto : Option (Option Nat)
  exception_handlers : Option (List (String × ν))
  guards : Option (List Nat)
  middleware : Option (List Nat)
  opt : Option (List (String × ν))
  signature_namespace : List (String × ν)
  signature_types : Option (List Nat)
  type_decoders : Option (List Nat)
  type_encoders : Option (List (String × ν))
  parameters : List (String × ν)

/-- Source `value_or_default(value, default)` (litestar.utils.empty, outside this
slice): the default when the value is the `Empty` sentinel, else the
value. -/
def value_or_default {β : Type} (value dflt : Option β) : Option β :=
  match value with
  | some v => some v
  | none => dflt

/-- Source `ASGIRouteHandler.merge(other)`: a new handler combining this
handler's configuration with the parent scope's, without mutating either
(the embedding is a pure function of both records; the source builds a
fresh `ASGIRouteHandler`, whose constructor stores each argument). -/
def merge {ν : Type} (self : ASGIRouteHandlerM ν) (other : ParentScopeM ν) :
    ASGIRouteHandlerM ν :=
  { paths := self.paths.map (fun p => join_paths [other.path, p])
    fn := self.fn
    dependencies := dictMerge (other.dependencies.getD []) self.dependencies
    dto := value_or_default self.dto other.dto
    return_dto := value_or_default self.return_dto other.return_dto
    exception_handlers :=
      dictMerge (other.exception_handlers.getD []) self.exception_handlers
    guards := other.guards.getD [] ++ self.guards
    middleware := other.middleware.getD [] ++ self.middleware
    name := self.name
    opt := dictMerge (other.opt.getD []) self.opt
    signature_namespace :=
      dictMerge other.signature_namespace self.signature_namespace
    signature_types := other.signature_types
    type_decoders := other.type_decoders.getD [] ++ self.type_decoders
    type_encoders := dictMerge (other.type_encoders.getD []) self.type_encoders
    parameters := dictMerge other.parameters self.parameters
    is_mount := self.is_mount }

/-- C5: `merge` yields a handler whose paths are every path fragment of
the parent scope (a `Controller`/`Router` carries exactly one fragment,
`other.path`, so the cross product collapses to mapping over the child's
fragments) joined parent-first with every one of the child's fragments;
whose mapping fields (dependencies, exception handlers, opt, signature
namespace, type encoders, parameters) are shallow merges in which the
child's binding wins on key collision; whose sequence fields (guards,
middleware, type decoders) are the parent's entries followed by the
child's; and whose `fn`, `name` and `is_mount` are the child's.  Neither
input is mutated: `merge` is a pure function of the two records and
returns a fresh one. -/
theorem merge_spec {ν : Type} (self : ASGIRouteHandlerM ν)
    (other : ParentScopeM ν) :
    (merge self other).paths =
      self.paths.map (fun p => join_paths [other.path, p]) ∧
    (∀ k, (merge self other).dependencies.lookup k =
      match self.dependencies.lookup k with
      | some v => some v
      | none => (other.dependencies.getD []).lookup k) ∧
    (∀ k, (merge self other).exception_handlers.lookup k =
      match self.exception_handlers.lookup k with
      | some v => some v
      | none => (other.exception_handlers.getD []).lookup k) ∧
    (∀ k, (merge self other).opt.lookup k =
      match self.opt.lookup k with
      | some v => some v
      | none => (other.opt.getD []).lookup k) ∧
    (∀ k, (merge self other).signature_namespace.lookup k =
      match self.signature_namespace.lookup k with
      | some v => some v
      | none => other.signature_namespace.lookup k) ∧
    (∀ k, (merge self other).type_encoders.lookup k =
      match self.type_encoders.lookup k with
      | some v => some v
      | none => (other.type_encoders.getD []).lookup k) ∧
    (∀ k, (merge self other).parameters.lookup k =
      match self.parameters.lookup k with
      | some v => some v
      | none => other.parameters.lookup k) ∧
    (merge self other).guards = other.guards.getD [] ++ self.guards ∧
    (merge self other).middleware =
      other.middleware.getD [] ++ self.middleware ∧
    (merge self other).type_decoders =
      other.type_decoders.getD [] ++ self.type_decoders ∧
    (merge self other).fn = self.fn ∧
    (merge self other).name = self.name ∧
    (merge self other).is_mount = self.is_mount := by
  refine ⟨rfl, ?_, ?_, ?_, ?_, ?_, ?_, rfl, rfl, rfl, rfl, rfl, rfl⟩ <;>
    intro k <;> exact dictMerge_lookup _ _ k

end Asgi
